import Mathlib

/-!
Verification of the KF4VSCODE extension core (src/extension.js) against its
natural-language specification.

The development shallowly embeds the runtime logic of `extension.js`:
pure helpers become Lean functions; the stateful `AuthService` and
`JobRunService` become explicit state-passing functions where every
network call's outcome is supplied as an explicit argument (an oracle),
so that each control-flow branch of the source is represented and
provable.  JavaScript truthiness on strings is modelled explicitly.
-/

namespace KF

/-! ### JavaScript modelling helpers -/

/-- Truthiness of a JS string: falsy exactly when empty. -/
def strTruthy (s : String) : Bool := s ≠ ""

/-- Truthiness of a JS `string | undefined` value. -/
def optStrTruthy : Option String → Bool
  | none => false
  | some s => strTruthy s

/-- Models `String.prototype.slice(-4)`: the trailing (at most) four
characters of a string. -/
def sliceLastFour (s : String) : String :=
  String.mk (s.data.drop (s.data.length - 4))

/-- Whitespace for the purpose of JS `String.prototype.trim` (the inputs
of interest only involve the ASCII cases). -/
def isJsSpace (c : Char) : Bool :=
  c = ' ' || c = '\t' || c = '\n' || c = '\r'

/-- Models JS `String.prototype.trim`: removes leading and trailing
whitespace. -/
def jsTrim (s : String) : String :=
  String.mk (((s.data.dropWhile isJsSpace).reverse.dropWhile isJsSpace).reverse)

/-- Models `s.replace(/\/$/, '')`: removes a single trailing slash. -/
def stripTrailingSlash (s : String) : String :=
  match s.data.reverse with
  | '/' :: rest => String.mk rest.reverse
  | _ => s

/-- Whether the second character list begins with the first. -/
def charsBeginWith : List Char → List Char → Bool
  | [], _ => true
  | _ :: _, [] => false
  | p :: ps, c :: cs => p = c && charsBeginWith ps cs

/-- ASCII lower-casing of one character (sufficient for the scheme
check, whose pattern is ASCII). -/
def lowerChar (c : Char) : Char :=
  if 'A' ≤ c ∧ c ≤ 'Z' then Char.ofNat (c.toNat + 32) else c

/-- Models the regex test `/^https?:\/\//i` from
`AuthService.resolveTokenEndpoint` (src/extension.js:176,184): a
case-insensitive check that the string starts with `http://` or
`https://`. -/
def startsWithHttp (s : String) : Bool :=
  let l := s.data.map lowerChar
  charsBeginWith "http://".data l || charsBeginWith "https://".data l

/-- Models the JS `Number(raw)` conversion as applied to the strings this
program itself persists (decimal digit strings produced by
`String(session.expiresAt)`): a non-empty all-digit string denotes its
decimal value.  Content that is not a decimal numeral maps to 0; the JS
NaN case never arises for values the program stores. -/
def jsToNumber (s : String) : Nat :=
  if s.data ≠ [] ∧ s.data.all (fun c => c.isDigit) then
    s.data.foldl (fun m c => m * 10 + (c.toNat - Char.toNat '0')) 0
  else 0

/-! ### Settings (src/extension.js:13-27)

Only the fields the verified code paths consult are modelled. -/

structure Settings where
  url : String := ""
  realm : String := ""
  tokenUrl : String := ""
  clientId : String := "kubeflow-vscode"
  defaultNamespace : String := "kubeflow-user"
  defaultPVCsize : String := "10Gi"
  autoPVCforPip : Bool := true
deriving Repr, DecidableEq

/-- Models `String(settings.clientId || 'kubeflow-vscode').trim()`
(src/extension.js:56,105). -/
def effectiveClientId (s : Settings) : String :=
  jsTrim (if s.clientId = "" then "kubeflow-vscode" else s.clientId)

/-! ### Sessions and the secret store (src/extension.js:9-11,29-44) -/

/-- An OAuth2 session as held by `AuthService` (`this.session`). -/
structure Session where
  accessToken : String
  refreshToken : Option String
  expiresAt : Nat
deriving Repr, DecidableEq

/-- The secret store restricted to the three fixed keys the service uses
(`kflow.accessToken`, `kflow.refreshToken`, `kflow.expiresAt`); each field
holds the value stored under the corresponding key, if any. -/
structure SecretStore where
  accessTokenVal : Option String := none
  refreshTokenVal : Option String := none
  expiresAtVal : Option String := none
deriving Repr, DecidableEq

/-- The mutable state of `AuthService`: the in-memory session, the armed
background-refresh timer (recorded as the delay in milliseconds it was
armed with, `none` when no timer is pending), and the secret store. -/
structure AuthState where
  session : Option Session := none
  timerDelay : Option Int := none
  store : SecretStore := {}
deriving Repr, DecidableEq

/-- The delay `Math.max(10000, this.session.expiresAt - Date.now() - 5 * 60 * 1000)`
from `AuthService.scheduleRefresh` (src/extension.js:140). -/
def refreshDelayMs (expiresAt now : Nat) : Int :=
  max 10000 ((expiresAt : Int) - (now : Int) - 5 * 60 * 1000)

/-- Models `AuthService.scheduleRefresh` (src/extension.js:137-147): a
no-op without a session; otherwise cancels any pending timer and arms a
new one with `refreshDelayMs`. -/
def scheduleRefresh (st : AuthState) (now : Nat) : AuthState :=
  match st.session with
  | none => st
  | some s => { st with timerDelay := some (refreshDelayMs s.expiresAt now) }

/-- Models `AuthService.setSession` (src/extension.js:129-135): replaces
the in-memory session, persists the access token, persists the refresh
token only when truthy, persists the stringified expiry, and reschedules
the background refresh. -/
def setSession (st : AuthState) (now : Nat) (s : Session) : AuthState :=
  let store1 := { st.store with accessTokenVal := some s.accessToken }
  let store2 :=
    match s.refreshToken with
    | some r => if r ≠ "" then { store1 with refreshTokenVal := some r } else store1
    | none => store1
  let store3 := { store2 with expiresAtVal := some (Nat.repr s.expiresAt) }
  scheduleRefresh { st with session := some s, store := store3 } now

/-- Models `AuthService.initialize` (src/extension.js:36-44): restores a
session from the secret store when a truthy access token is present
(`refreshToken || undefined` maps an empty stored refresh token to
absent; a falsy stored expiry falls back to `Date.now()`), then schedules
the refresh timer. -/
def restoreSession (store : SecretStore) (now : Nat) : AuthState :=
  match store.accessTokenVal with
  | none => { store := store }
  | some a =>
    if a = "" then { store := store }
    else
      let refreshToken : Option String :=
        match store.refreshTokenVal with
        | some r => if r ≠ "" then some r else none
        | none => none
      let expiresAt : Nat :=
        match store.expiresAtVal with
        | some raw => if raw ≠ "" then jsToNumber raw else now
        | none => now
      scheduleRefresh
        { session := some ⟨a, refreshToken, expiresAt⟩, timerDelay := none, store := store }
        now

/-- Models `AuthService.signOut` (src/extension.js:91-99): clears the
in-memory session, cancels the timer, and deletes all three persisted
keys. -/
def signOut (_st : AuthState) : AuthState :=
  { session := none, timerDelay := none, store := {} }

/-! ### Token-endpoint resolution (src/extension.js:172-193) -/

/-- Models `AuthService.resolveTokenEndpoint`.  The explicit
`kflow.keycloak.tokenUrl` setting, when truthy, is trimmed, validated to
start with `http://`/`https://` (case-insensitively) and used with one
trailing slash stripped; otherwise a trimmed realm value that is itself an
http(s) URL gets `/protocol/openid-connect/token` appended after stripping
one trailing slash; otherwise the endpoint is composed from the base URL
(one trailing slash stripped) and the realm, defaulting to `kubeflow`. -/
def resolveTokenEndpoint (settings : Settings) (url realm : String) :
    Except String String :=
  if settings.tokenUrl ≠ "" then
    let tokenUrl := jsTrim settings.tokenUrl
    if !startsWithHttp tokenUrl then
      .error "Invalid \"kflow.keycloak.tokenUrl\": expected absolute URL starting with http:// or https://."
    else
      .ok (stripTrailingSlash tokenUrl)
  else
    let realmValue := jsTrim realm
    if startsWithHttp realmValue then
      .ok (stripTrailingSlash realmValue ++ "/protocol/openid-connect/token")
    else
      let base := stripTrailingSlash url
      let r := if realmValue = "" then "kubeflow" else realmValue
      .ok (base ++ "/realms/" ++ r ++ "/protocol/openid-connect/token")

/-! ### Token responses and authentication errors
(src/extension.js:46-79,101-170) -/

/-- The JSON payload of a successful token-endpoint response, reduced to
the fields the code reads. -/
structure TokenPayload where
  access_token : String
  refresh_token : Option String
  expires_in : Option Nat
deriving Repr, DecidableEq

/-- The outcome of a `fetch` of the token endpoint: a 2xx response with a
parsed JSON payload, or a non-2xx response with its status and body. -/
inductive FetchResult where
  | ok (payload : TokenPayload)
  | err (status : Nat) (body : String)
deriving Repr, DecidableEq

/-- Models `Number(payload.expires_in || 300)` (src/extension.js:77,125):
an absent or zero (falsy) `expires_in` defaults to 300 seconds. -/
def effectiveExpiresIn (p : TokenPayload) : Nat :=
  match p.expires_in with
  | some n => if n = 0 then 300 else n
  | none => 300

/-- The session constructed from a token response
(src/extension.js:74-78,122-126).  `prior` is the refresh token to keep
when the response's `refresh_token` is falsy: `none` on login, the
session's previous refresh token on refresh. -/
def sessionOfPayload (now : Nat) (p : TokenPayload) (prior : Option String) :
    Session :=
  { accessToken := p.access_token
    refreshToken := if optStrTruthy p.refresh_token then p.refresh_token else prior
    expiresAt := now + effectiveExpiresIn p * 1000 }

/-- Result of attempting `JSON.parse` on an error-response body, reduced
to the two fields `buildAuthErrorMessage` reads (`error`,
`error_description`); `none` models a parse failure.  The parse is passed
in as a parameter: it is a deterministic function of the body alone. -/
structure ErrBody where
  error : Option String
  error_description : Option String

/-- Models `AuthService.buildAuthErrorMessage` (src/extension.js:149-170):
constructs the user-facing error text from the response status, response
body, token endpoint, and client id — nothing else. -/
def buildAuthErrorMessage (parse : String → Option ErrBody)
    (status : Nat) (body : String) (tokenEndpoint clientId : String) : String :=
  let rawDetails := jsTrim body
  match parse body with
  | none =>
    "Authentication failed (" ++ Nat.repr status ++ ") at " ++ tokenEndpoint
      ++ ": " ++ rawDetails
  | some p =>
    let err := match p.error with | some e => e | none => ""
    let desc := match p.error_description with | some d => d | none => ""
    let joined := String.intercalate ": " (([err, desc]).filter (· ≠ ""))
    let details := if joined ≠ "" then joined else rawDetails
    if err = "invalid_client" ∨ err = "unauthorized_client" then
      "Authentication failed (" ++ Nat.repr status ++ "): " ++ details
        ++ ". Verify Keycloak client \"" ++ clientId
        ++ "\" exists, is public or has proper secret, and has Direct Access Grants enabled."
    else if err = "invalid_grant" then
      "Authentication failed (" ++ Nat.repr status ++ "): " ++ details
        ++ ". Credentials may be correct, but user can be blocked by required actions, temporary disablement, or missing password grant permissions in Keycloak."
    else
      "Authentication failed (" ++ Nat.repr status ++ ") at " ++ tokenEndpoint
        ++ ": " ++ details

/-! ### Login, refresh, and session validity
(src/extension.js:46-89,101-127) -/

/-- The form-encoded request body `loginInteractive` sends to the token
endpoint (src/extension.js:57-66); recorded so that theorems can relate
what flows into the request with what flows into error text. -/
structure LoginRequest where
  endpoint : String
  grant_type : String
  client_id : String
  username : String
  password : String
deriving Repr, DecidableEq

/-- Models the non-interactive core of `AuthService.loginInteractive`
(src/extension.js:46-79) after the three input prompts succeeded:
resolves the token endpoint, issues the password-grant request (returned
as the first component; `none` when endpoint resolution failed before any
request), and on a non-2xx response fails with `buildAuthErrorMessage`,
otherwise sets the session built from the payload. -/
def loginAttempt (st : AuthState) (now : Nat) (settings : Settings)
    (url username password : String) (response : FetchResult)
    (parse : String → Option ErrBody) :
    Option LoginRequest × AuthState × Except String Unit :=
  match resolveTokenEndpoint settings url settings.realm with
  | .error e => (none, st, .error e)
  | .ok tokenEndpoint =>
    let clientId := effectiveClientId settings
    let req : LoginRequest :=
      { endpoint := tokenEndpoint, grant_type := "password",
        client_id := clientId, username := username, password := password }
    match response with
    | .err status body =>
      (some req, st, .error (buildAuthErrorMessage parse status body tokenEndpoint clientId))
    | .ok payload =>
      (some req, setSession st now (sessionOfPayload now payload none), .ok ())

/-- Models `AuthService.refreshSession` (src/extension.js:101-127): fails
(leaving the state untouched) without a session or truthy refresh token,
or when endpoint resolution fails, or when the refresh-grant response is
non-2xx; on success replaces the session via `setSession`, keeping the
prior refresh token when the response omits one. -/
def refreshSession (st : AuthState) (now : Nat) (settings : Settings)
    (response : FetchResult) (parse : String → Option ErrBody) :
    AuthState × Except String Unit :=
  match st.session with
  | none => (st, .error "No refresh token is available.")
  | some s =>
    match s.refreshToken with
    | none => (st, .error "No refresh token is available.")
    | some rt =>
      if rt = "" then (st, .error "No refresh token is available.")
      else
        match resolveTokenEndpoint settings settings.url settings.realm with
        | .error e => (st, .error e)
        | .ok tokenEndpoint =>
          match response with
          | .err status body =>
            (st, .error (buildAuthErrorMessage parse status body tokenEndpoint
              (effectiveClientId settings)))
          | .ok payload =>
            (setSession st now (sessionOfPayload now payload (some rt)), .ok ())

/-- Models `AuthService.ensureValidSession` (src/extension.js:85-89):
fails without a session; returns immediately (no request) while the
current time plus the 5-minute safety window is strictly before the
session's expiry; otherwise performs a refresh and returns its outcome. -/
def ensureValidSessionRun (st : AuthState) (now : Nat) (settings : Settings)
    (response : FetchResult) (parse : String → Option ErrBody) :
    AuthState × Except String Unit :=
  match st.session with
  | none => (st, .error "Not logged in. Run \"Kubeflow: Login\" first.")
  | some s =>
    if now + 5 * 60 * 1000 < s.expiresAt then (st, .ok ())
    else refreshSession st now settings response parse

/-- Models the background-refresh timer callback armed by
`scheduleRefresh` (src/extension.js:141-146): attempts a refresh and, on
failure, reports a warning and signs out. -/
def timerFire (st : AuthState) (now : Nat) (settings : Settings)
    (response : FetchResult) (parse : String → Option ErrBody) : AuthState :=
  match refreshSession st now settings response parse with
  | (st', .ok _) => st'
  | (st', .error _) => signOut st'

/-! ### Manifests (src/extension.js:284-361)

`nsp` renders the `namespace` field of the source objects (`namespace` is
a reserved word in Lean). -/

/-- The options record assembled by `runFromActivePythonFile` /
`runFromTemplate` and consumed by `ManifestBuilder.buildPyTorchJob`. -/
structure JobOptions where
  name : String
  nsp : String
  image : String
  gpu : Nat
  cpu : String
  memory : String
  scriptPath : String
  pip : List String
  apt : List String
  autoPVCforPip : Bool
deriving Repr, DecidableEq

/-- A pod volume's source: a ConfigMap or a PersistentVolumeClaim. -/
inductive VolumeSource where
  | configMap (name : String)
  | persistentVolumeClaim (claimName : String)
deriving Repr, DecidableEq

structure Volume where
  name : String
  source : VolumeSource
deriving Repr, DecidableEq

structure VolumeMount where
  name : String
  mountPath : String
deriving Repr, DecidableEq

/-- The single container of the Master replica spec
(src/extension.js:326-347).  Resource limits carry the GPU value; the
requests omit it, exactly as in the source. -/
structure Container where
  name : String
  image : String
  command : List String
  limitsGpu : Nat
  limitsCpu : String
  limitsMemory : String
  requestsCpu : String
  requestsMemory : String
  volumeMounts : List VolumeMount
deriving Repr, DecidableEq

/-- The `Master` entry of `spec.pytorchReplicaSpecs`
(src/extension.js:320-356). -/
structure ReplicaSpec where
  replicas : Nat
  restartPolicy : String
  containers : List Container
  volumes : List Volume
deriving Repr, DecidableEq

/-- Object metadata with the three server-populated fields that
`restartLastRun` strips. -/
structure Metadata where
  name : String
  nsp : String
  labels : List (String × String)
  resourceVersion : Option String := none
  uid : Option String := none
  creationTimestamp : Option String := none
deriving Repr, DecidableEq

/-- A PyTorchJob manifest as built by `ManifestBuilder.buildPyTorchJob`
and cached by `JobRunService.lastManifest`. -/
structure Manifest where
  apiVersion : String
  kind : String
  metadata : Metadata
  masterSpec : ReplicaSpec
deriving Repr, DecidableEq

/-- The apt segment of the startup command (src/extension.js:307): empty
when no apt dependencies, otherwise
`apt-get update && apt-get install -y <deps> && `. -/
def aptInstallPart (apt : List String) : String :=
  if apt.isEmpty then ""
  else "apt-get update && apt-get install -y " ++ String.intercalate " " apt ++ " && "

/-- The pip segment of the startup command (src/extension.js:308): empty
when no pip dependencies, otherwise `pip install <deps> && `. -/
def pipInstallPart (pip : List String) : String :=
  if pip.isEmpty then ""
  else "pip install " ++ String.intercalate " " pip ++ " && "

/-- The container startup command (src/extension.js:309):
`` `${aptInstall}${pipInstall}python ${options.scriptPath}` ``. -/
def startupCmd (o : JobOptions) : String :=
  aptInstallPart o.apt ++ pipInstallPart o.pip ++ "python " ++ o.scriptPath

/-- Models `ManifestBuilder.buildPyTorchJob` (src/extension.js:306-360). -/
def buildPyTorchJob (o : JobOptions) (artifactConfigMapName : String) : Manifest :=
  { apiVersion := "kubeflow.org/v1"
    kind := "PyTorchJob"
    metadata :=
      { name := o.name, nsp := o.nsp
        labels := [("app.kubernetes.io/managed-by", "kubeflow-vscode")] }
    masterSpec :=
      { replicas := 1
        restartPolicy := "OnFailure"
        containers :=
          [{ name := "pytorch", image := o.image
             command := ["/bin/sh", "-c", startupCmd o]
             limitsGpu := o.gpu, limitsCpu := o.cpu, limitsMemory := o.memory
             requestsCpu := o.cpu, requestsMemory := o.memory
             volumeMounts :=
               [⟨"job-code", "/workspace"⟩] ++
                 (if o.autoPVCforPip then [⟨"pip-cache", "/root/.cache/pip"⟩] else []) }]
        volumes :=
          [⟨"job-code", .configMap artifactConfigMapName⟩] ++
            (if o.autoPVCforPip
              then [⟨"pip-cache", .persistentVolumeClaim "pip-cache-pvc"⟩] else []) } }

/-- Models `ManifestBuilder.buildPVC` (src/extension.js:285-295). -/
structure PVCManifest where
  name : String
  nsp : String
  accessModes : List String
  storage : String
deriving Repr, DecidableEq

def buildPVC (name nsp size : String) : PVCManifest :=
  { name := name, nsp := nsp, accessModes := ["ReadWriteOnce"], storage := size }

/-- Models `ManifestBuilder.buildArtifactConfigMap`
(src/extension.js:297-304). -/
structure ConfigMapManifest where
  name : String
  nsp : String
  dataKey : String
  dataVal : String
deriving Repr, DecidableEq

def buildArtifactConfigMap (nsp name encodedTarGz : String) : ConfigMapManifest :=
  { name := name, nsp := nsp, dataKey := "artifact.tar.gz.base64", dataVal := encodedTarGz }

/-! ### JobRunService (src/extension.js:423-590) -/

/-- Outcome of a Kubernetes API create call, as observed by the caller of
`K8sApiClient.request` (src/extension.js:263-281). -/
inductive ApiResult where
  | ok
  | err (status : Nat) (body : String)
deriving Repr, DecidableEq

/-- The error text `K8sApiClient.request` throws for a non-2xx response
(src/extension.js:279). -/
def apiErrorMsg (status : Nat) (body : String) : String :=
  "Kubernetes API error " ++ Nat.repr status ++ ": " ++ body

/-- Models `JobRunService.getLastManifest` (src/extension.js:431-433) on
the single-slot cache. -/
def getLastManifest (cache : Option Manifest) : Option Manifest := cache

/-- Result of `restartLastRun`: the cache after the call, the manifest
body passed to the create request (when one was issued), and the outcome
(the new job name, or the propagated error). -/
structure RestartResult where
  cache : Option Manifest
  requested : Option Manifest
  result : Except String String
deriving Repr

/-- Models `JobRunService.restartLastRun` (src/extension.js:448-464):
fails when nothing is cached; otherwise clones the cached manifest
(`JSON.parse(JSON.stringify(...))`, the identity on these records),
renames it to `<oldName>-restart-<Date.now().toString().slice(-4)>`,
deletes `resourceVersion`, `uid` and `creationTimestamp`, submits the
clone through `createCustomObject` (outcome supplied as `createResult`),
and only after a successful create replaces the cache with the clone.
The namespace used for the create path
(`manifest?.metadata?.namespace || defaultNamespace`) does not affect the
modelled observables and is elided. -/
def restartLastRun (cache : Option Manifest) (now : Nat)
    (createResult : ApiResult) : RestartResult :=
  match cache with
  | none =>
    { cache := none, requested := none
      result := .error "No previous manifest available. Run a job first." }
  | some m =>
    let oldName := if m.metadata.name ≠ "" then m.metadata.name else "ptjob"
    let newName := oldName ++ "-restart-" ++ sliceLastFour (Nat.repr now)
    let clone : Manifest :=
      { m with metadata :=
        { m.metadata with
            name := newName, resourceVersion := none, uid := none,
            creationTimestamp := none } }
    match createResult with
    | .err status body =>
      { cache := some m, requested := some clone
        result := .error (apiErrorMsg status body) }
    | .ok =>
      { cache := some clone, requested := some clone, result := .ok newName }

/-- The oracle for the effectful steps of `submitRun`: the outcome of
artifact packaging, of base64 encoding, and of the three create calls. -/
structure SubmitEnv where
  packageResult : Except String String
  encodeResult : Except String String
  cmCreate : ApiResult
  pvcCreate : ApiResult
  jobCreate : ApiResult
deriving Repr

/-- Result of `submitRun`: the cache after the call, the PVC body passed
to the pip-cache create request (when one was issued), the job manifest
passed to the final create request (when one was issued), and the overall
outcome. -/
structure SubmitResult where
  cache : Option Manifest
  pvcRequested : Option PVCManifest
  jobRequested : Option Manifest
  result : Except String Unit
deriving Repr

/-- Models `JobRunService.submitRun` (src/extension.js:563-589): package
the script, encode it, create the `<job>-artifact` ConfigMap, then — only
when `autoPVCforPip` — attempt to create the shared `pip-cache-pvc` with
an empty catch clause, so that EVERY outcome of that create (success,
conflict, or any other failure) continues identically; then build the job
manifest, store it in the cache, and finally submit it. -/
def submitRun (cache : Option Manifest) (o : JobOptions) (settings : Settings)
    (env : SubmitEnv) : SubmitResult :=
  match env.packageResult with
  | .error e => { cache := cache, pvcRequested := none, jobRequested := none, result := .error e }
  | .ok _archive =>
    match env.encodeResult with
    | .error e => { cache := cache, pvcRequested := none, jobRequested := none, result := .error e }
    | .ok _encoded =>
      let cmName := o.name ++ "-artifact"
      match env.cmCreate with
      | .err status body =>
        { cache := cache, pvcRequested := none, jobRequested := none
          result := .error (apiErrorMsg status body) }
      | .ok =>
        let pvcRequested :=
          if o.autoPVCforPip
            then some (buildPVC "pip-cache-pvc" o.nsp settings.defaultPVCsize)
            else none
        let _pvcOutcomeSwallowed : Unit :=
          match env.pvcCreate with
          | .ok => ()
          | .err _ _ => ()
        let manifest := buildPyTorchJob o cmName
        match env.jobCreate with
        | .err status body =>
          { cache := some manifest, pvcRequested := pvcRequested
            jobRequested := some manifest, result := .error (apiErrorMsg status body) }
        | .ok =>
          { cache := some manifest, pvcRequested := pvcRequested
            jobRequested := some manifest, result := .ok () }

/-! ### Spec-side reformulation used by claim C1 -/

/-- The startup-command segments as the specification words them: an apt
segment only when the apt list is non-empty, then a pip segment only when
the pip list is non-empty, then the script invocation, to be joined with
`&&`. -/
def specCommandSegments (o : JobOptions) : List String :=
  (if o.apt = [] then []
    else ["apt-get update && apt-get install -y " ++ String.intercalate " " o.apt]) ++
  (if o.pip = [] then [] else ["pip install " ++ String.intercalate " " o.pip]) ++
  ["python " ++ o.scriptPath]

/-- The property claim C2 asserts of `restartLastRun` at a cached manifest
`m` and time `now`: restarting with nothing cached fails; restarting `m`
(given a successful create) produces a clone whose name is
`<oldName>-restart-<4 digits>`, whose `resourceVersion`, `uid` and
`creationTimestamp` are removed, all of whose other fields equal those of
`m`, which is the body resubmitted, and which replaces the cache. -/
def RestartSpecHolds (m : Manifest) (now : Nat) : Prop :=
  (∀ (now2 : Nat) (res : ApiResult),
    (restartLastRun none now2 res).result
      = .error "No previous manifest available. Run a job first.") ∧
  ∃ clone newName,
    restartLastRun (some m) now .ok
      = { cache := some clone, requested := some clone, result := .ok newName } ∧
    clone.metadata.name = newName ∧
    (∃ suffix, newName = m.metadata.name ++ "-restart-" ++ suffix ∧
      suffix.length = 4 ∧ ∀ c ∈ suffix.data, c.isDigit = true) ∧
    clone.metadata.resourceVersion = none ∧
    clone.metadata.uid = none ∧
    clone.metadata.creationTimestamp = none ∧
    clone.apiVersion = m.apiVersion ∧
    clone.kind = m.kind ∧
    clone.metadata.nsp = m.metadata.nsp ∧
    clone.metadata.labels = m.metadata.labels ∧
    clone.masterSpec = m.masterSpec

/-- The spec's own restart example: a cached manifest named `ptjob-123`
carrying server-populated `resourceVersion`/`uid`/`creationTimestamp`. -/
def exCachedManifest : Manifest :=
  { apiVersion := "kubeflow.org/v1"
    kind := "PyTorchJob"
    metadata :=
      { name := "ptjob-123"
        nsp := "kubeflow-user"
        labels := [("app.kubernetes.io/managed-by", "kubeflow-vscode")]
        resourceVersion := some "42"
        uid := some "u1"
        creationTimestamp := some "2026-01-01" }
    masterSpec :=
      { replicas := 1, restartPolicy := "OnFailure"
        containers := [], volumes := [] } }

/-- Concrete options used by claim C4's scenarios: a template run with
`autoPVCforPip` enabled. -/
def exSubmitOpts : JobOptions :=
  { name := "job1", nsp := "kubeflow-user", image := "img", gpu := 1,
    cpu := "2", memory := "16Gi", scriptPath := "/w/train.py",
    pip := ["torch"], apt := [], autoPVCforPip := true }

/-- Concrete state used by claim C8's counterexample: an authenticated
manager whose in-memory session, timer and persisted keys are all set. -/
def exAuthedState : AuthState :=
  { session := some ⟨"tok", some "rt", 1000⟩
    timerDelay := some 10000
    store :=
      { accessTokenVal := some "tok", refreshTokenVal := some "rt",
        expiresAtVal := some "1000" } }

/-- Concrete state used by claim C8's witness. -/
def exAuthedState2 : AuthState :=
  { session := some ⟨"tok2", some "rt2", 2000⟩
    timerDelay := none
    store :=
      { accessTokenVal := some "tok2", refreshTokenVal := some "rt2",
        expiresAtVal := some "2000" } }

/-! ### Helper lemmas: `String.intercalate` on short lists -/

theorem intercalate_single (s a : String) : String.intercalate s [a] = a := rfl

theorem intercalate_pair (s a b : String) :
    String.intercalate s [a, b] = a ++ s ++ b := rfl

theorem intercalate_triple (s a b c : String) :
    String.intercalate s [a, b, c] = a ++ s ++ b ++ s ++ c := rfl

/-! ### Helper lemmas: decimal representation of naturals

`restartLastRun` derives the restart suffix from
`Date.now().toString().slice(-4)` and `setSession` persists
`String(session.expiresAt)`; these lemmas establish that `Nat.repr`
produces a non-empty all-digit string and that `String.toNat?` (the model
of `Number` on such strings) inverts it. -/

theorem digitChar_isDigit {n : Nat} (h : n < 10) :
    (Nat.digitChar n).isDigit = true := by
  interval_cases n <;> decide

theorem digitChar_decode {n : Nat} (h : n < 10) :
    (Nat.digitChar n).toNat - Char.toNat '0' = n := by
  interval_cases n <;> decide

theorem toDigitsCore_all_digits :
    ∀ (fuel n : Nat) (acc : List Char), (∀ c ∈ acc, c.isDigit = true) →
      ∀ c ∈ Nat.toDigitsCore 10 fuel n acc, c.isDigit = true := by
  intro fuel
  induction fuel with
  | zero => intro n acc hacc c hc; exact hacc c hc
  | succ fuel ih =>
    intro n acc hacc c hc
    simp only [Nat.toDigitsCore] at hc
    by_cases h : n / 10 = 0
    · rw [if_pos h] at hc
      rcases List.mem_cons.mp hc with h1 | h2
      · subst h1; exact digitChar_isDigit (Nat.mod_lt _ (by decide))
      · exact hacc c h2
    · rw [if_neg h] at hc
      refine ih (n / 10) _ ?_ c hc
      intro d hd
      rcases List.mem_cons.mp hd with h1 | h2
      · subst h1; exact digitChar_isDigit (Nat.mod_lt _ (by decide))
      · exact hacc d h2

theorem toDigitsCore_shift :
    ∀ (fuel n : Nat) (acc : List Char),
      Nat.toDigitsCore 10 fuel n acc = Nat.toDigitsCore 10 fuel n [] ++ acc := by
  intro fuel
  induction fuel with
  | zero => intro n acc; simp [Nat.toDigitsCore]
  | succ fuel ih =>
    intro n acc
    simp only [Nat.toDigitsCore]
    by_cases h : n / 10 = 0
    · simp [h]
    · rw [if_neg h, if_neg h, ih (n / 10) (Nat.digitChar (n % 10) :: acc),
        ih (n / 10) [Nat.digitChar (n % 10)]]
      simp

theorem toDigits_ne_nil (n : Nat) : Nat.toDigits 10 n ≠ [] := by
  rw [Nat.toDigits]
  simp only [Nat.toDigitsCore]
  by_cases h : n / 10 = 0
  · simp [h]
  · rw [if_neg h, toDigitsCore_shift]
    simp

theorem toDigitsCore_foldl :
    ∀ (fuel n : Nat), n < fuel → ∀ (a : Nat),
      (Nat.toDigitsCore 10 fuel n []).foldl
          (fun m c => m * 10 + (c.toNat - Char.toNat '0')) a
        = a * 10 ^ (Nat.toDigitsCore 10 fuel n []).length + n := by
  intro fuel
  induction fuel with
  | zero => intro n hn; omega
  | succ fuel ih =>
    intro n hn a
    simp only [Nat.toDigitsCore]
    by_cases h : n / 10 = 0
    · rw [if_pos h]
      have hlt : n < 10 := by omega
      have hmod : n % 10 = n := Nat.mod_eq_of_lt hlt
      simp only [List.foldl, List.length_cons, List.length_nil, Nat.zero_add,
        Nat.pow_one]
      rw [hmod, digitChar_decode hlt]
    · rw [if_neg h, toDigitsCore_shift]
      have hrec : n / 10 < fuel := by
        have h1 : 0 < n := by
          rcases Nat.eq_zero_or_pos n with h0 | h1
          · subst h0; simp at h
          · exact h1
        have h2 : n / 10 < n := Nat.div_lt_self h1 (by decide)
        omega
      rw [List.foldl_append, ih (n / 10) hrec a]
      have h10 : n % 10 < 10 := Nat.mod_lt _ (by decide)
      simp only [List.foldl, List.length_append, List.length_cons,
        List.length_nil]
      rw [digitChar_decode h10]
      have hd : n / 10 * 10 + n % 10 = n := by omega
      have hp : 10 ^ ((Nat.toDigitsCore 10 fuel (n / 10) []).length + (0 + 1))
          = 10 ^ (Nat.toDigitsCore 10 fuel (n / 10) []).length * 10 := by
        rw [Nat.zero_add, Nat.pow_succ]
      rw [hp]
      ring_nf
      omega

theorem repr_data (n : Nat) : (Nat.repr n).data = Nat.toDigits 10 n := rfl

theorem repr_ne_empty (n : Nat) : Nat.repr n ≠ "" := by
  intro h
  have := congrArg String.data h
  rw [repr_data] at this
  exact toDigits_ne_nil n this

theorem repr_all_digits (n : Nat) :
    ∀ c ∈ (Nat.repr n).data, c.isDigit = true := by
  intro c hc
  rw [repr_data, Nat.toDigits] at hc
  exact toDigitsCore_all_digits (n + 1) n [] (by intro d hd; cases hd) c hc

theorem jsToNumber_repr (n : Nat) : jsToNumber (Nat.repr n) = n := by
  rw [jsToNumber]
  have hne : (Nat.repr n).data ≠ [] := by
    rw [repr_data]; exact toDigits_ne_nil n
  have hall : (Nat.repr n).data.all (fun c => c.isDigit) = true :=
    List.all_eq_true.mpr (repr_all_digits n)
  rw [if_pos ⟨hne, hall⟩]
  have := toDigitsCore_foldl (n + 1) n (Nat.lt_succ_self n) 0
  rw [repr_data, Nat.toDigits, this]
  simp

/-! ### Helper lemmas: the `slice(-4)` suffix -/

theorem sliceLastFour_length {s : String} (h : 4 ≤ s.length) :
    (sliceLastFour s).length = 4 := by
  have : s.length = s.data.length := rfl
  simp only [sliceLastFour, String.length] at *
  rw [List.length_drop]
  omega

theorem sliceLastFour_digits (n : Nat) :
    ∀ c ∈ (sliceLastFour (Nat.repr n)).data, c.isDigit = true := by
  intro c hc
  simp only [sliceLastFour] at hc
  exact repr_all_digits n c (List.mem_of_mem_drop hc)

/-! ### Helper lemmas: unfolding `String.intercalate` -/

theorem igo_nil (acc s : String) : String.intercalate.go acc s [] = acc := rfl

theorem igo_cons (acc s a : String) (as : List String) :
    String.intercalate.go acc s (a :: as)
      = String.intercalate.go (acc ++ s ++ a) s as := rfl

theorem sep_python (x : String) :
    " && " ++ ("python " ++ x) = " && python " ++ x := by
  rw [← String.append_assoc]
  rfl

/-! ### Claim C1: composition of the container startup command -/

/-- C1: for every `JobOptions`, `buildPyTorchJob` places in its single
container the shell command that is the ordered concatenation — apt
segment (only when apt deps exist), then pip segment (only when pip deps
exist), then the script invocation — joined with `&&`; and the two
concrete examples from the spec hold exactly. -/
theorem startup_command_composition :
    (∀ (o : JobOptions) (cm : String),
      ∃ c, (buildPyTorchJob o cm).masterSpec.containers = [c] ∧
        c.command = ["/bin/sh", "-c", startupCmd o]) ∧
    (∀ o : JobOptions,
      startupCmd o = String.intercalate " && " (specCommandSegments o)) ∧
    startupCmd
        { name := "ptjob-1", nsp := "kubeflow-user", image := "img", gpu := 1,
          cpu := "2", memory := "16Gi", scriptPath := "/w/s.py",
          pip := ["a", "b"], apt := [], autoPVCforPip := true }
      = "pip install a b && python /w/s.py" ∧
    startupCmd
        { name := "ptjob-1", nsp := "kubeflow-user", image := "img", gpu := 1,
          cpu := "2", memory := "16Gi", scriptPath := "/w/s.py",
          pip := [], apt := ["libgdal-dev"], autoPVCforPip := true }
      = "apt-get update && apt-get install -y libgdal-dev && python /w/s.py" := by
  refine ⟨fun o cm => ⟨_, rfl, rfl⟩, fun o => ?_, by decide, by decide⟩
  rcases ha : o.apt with _ | ⟨a, as⟩ <;> rcases hp : o.pip with _ | ⟨p, ps⟩ <;>
    simp [startupCmd, specCommandSegments, aptInstallPart, pipInstallPart, ha, hp,
      String.intercalate, igo_nil, igo_cons, String.append_assoc, sep_python]

/-! ### Claim C2: restartLastRun clones, strips, renames, resubmits -/

/-- C2: `restartLastRun` fails without a cached manifest and otherwise
clones, strips the three server-populated metadata fields, renames to
`<oldName>-restart-<4-digit time suffix>`, resubmits the clone and caches
it, leaving every other field unchanged.  The hypotheses record that the
cached manifest has a (truthy) name and that the current epoch-millisecond
time has at least four decimal digits, both true of every run the
extension can produce. -/
theorem restartLastRun_spec (m : Manifest) (now : Nat)
    (hname : m.metadata.name ≠ "") (hlen : 4 ≤ (Nat.repr now).length) :
    RestartSpecHolds m now := by
  constructor
  · intro now2 res; rfl
  · refine ⟨{ m with metadata := { m.metadata with
        name := m.metadata.name ++ "-restart-" ++ sliceLastFour (Nat.repr now),
        resourceVersion := none, uid := none, creationTimestamp := none } },
      m.metadata.name ++ "-restart-" ++ sliceLastFour (Nat.repr now), ?_, rfl,
      ⟨sliceLastFour (Nat.repr now), rfl, sliceLastFour_length hlen,
        sliceLastFour_digits now⟩, rfl, rfl, rfl, rfl, rfl, rfl, rfl, rfl⟩
    simp [restartLastRun, hname]

/-- Witness for C2 at the spec's own example, restarted at a concrete
epoch-millisecond time. -/
theorem restartLastRun_spec_witness :
    exCachedManifest.metadata.name ≠ ""
    ∧ 4 ≤ (Nat.repr 1739212345678).length
    ∧ RestartSpecHolds exCachedManifest 1739212345678 :=
  ⟨by decide, by decide, restartLastRun_spec _ _ (by decide) (by decide)⟩

/-! ### Claim C10: cache discipline of restart versus submit -/

/-- C10: when the final create request inside `restartLastRun` fails, the
single-slot cache still holds the pre-restart manifest (the cache is
replaced only after a successful create), whereas `submitRun` stores the
newly built manifest in the cache before submitting, so its cache holds
the new manifest even when the job create fails. -/
theorem restart_cache_on_failure (m : Manifest) (o : JobOptions)
    (settings : Settings) (now status : Nat) (body : String) (pvc : ApiResult) :
    (getLastManifest (restartLastRun (some m) now (.err status body)).cache
        = some m ∧
      (restartLastRun (some m) now (.err status body)).result
        = .error (apiErrorMsg status body)) ∧
    (getLastManifest
        (submitRun (some m) o settings
          { packageResult := .ok "/tmp/a.tar.gz", encodeResult := .ok "QUJD",
            cmCreate := .ok, pvcCreate := pvc,
            jobCreate := .err status body }).cache
      = some (buildPyTorchJob o (o.name ++ "-artifact"))) := by
  refine ⟨⟨rfl, rfl⟩, ?_⟩
  cases pvc <;> rfl

/-! ### Claim C3: ensureValidSession branch behaviour -/

/-- C3: `ensureValidSession` fails with the authentication error when no
session exists; when a session exists and the current time plus the
5-minute safety window is strictly before the session's expiry it returns
at once — the state is unchanged and the outcome does not depend on the
network oracle (no refresh request is performed); in every other case it
performs the refresh before returning. -/
theorem ensureValidSession_spec (st : AuthState) (now : Nat)
    (settings : Settings) (response : FetchResult)
    (parse : String → Option ErrBody) :
    (st.session = none →
      ensureValidSessionRun st now settings response parse
        = (st, .error "Not logged in. Run \"Kubeflow: Login\" first.")) ∧
    (∀ s, st.session = some s → now + 5 * 60 * 1000 < s.expiresAt →
      ensureValidSessionRun st now settings response parse = (st, .ok ())) ∧
    (∀ s, st.session = some s → ¬ now + 5 * 60 * 1000 < s.expiresAt →
      ensureValidSessionRun st now settings response parse
        = refreshSession st now settings response parse) := by
  refine ⟨fun h => ?_, fun s hs hlt => ?_, fun s hs hge => ?_⟩
  · simp [ensureValidSessionRun, h]
  · simp [ensureValidSessionRun, hs, hlt]
  · simp [ensureValidSessionRun, hs, hge]

/-- Witness for C3: a fresh session far from expiry is left untouched and
no refresh happens even when the network oracle would fail. -/
theorem ensureValidSession_spec_witness :
    ({ session := some ⟨"tok", none, 1000000000⟩ } : AuthState).session
        = some ⟨"tok", none, 1000000000⟩
    ∧ 0 + 5 * 60 * 1000 < (1000000000 : Nat)
    ∧ ensureValidSessionRun { session := some ⟨"tok", none, 1000000000⟩ } 0 {}
        (.err 500 "unreachable") (fun _ => none)
      = ({ session := some ⟨"tok", none, 1000000000⟩ }, .ok ()) :=
  ⟨rfl, by decide,
    (ensureValidSession_spec _ 0 {} (.err 500 "unreachable") (fun _ => none)).2.1
      _ rfl (by decide)⟩

/-! ### Claim C4: which failures submitRun swallows -/

/-- C4 counterexample: with `autoPVCforPip = true`, a NON-conflict
failure of the pip-cache PVC create (HTTP 500) is swallowed exactly like
a conflict — the run still proceeds to job submission and succeeds — so
PVC-create conflicts are not the only swallowed failure class: the empty
catch on the PVC create swallows every failure of that call. -/
theorem submitRun_swallows_any_pvc_failure :
    (submitRun none exSubmitOpts {}
        { packageResult := .ok "/tmp/a.tar.gz", encodeResult := .ok "QUJD",
          cmCreate := .ok, pvcCreate := .err 500 "Internal Server Error",
          jobCreate := .ok }).result = .ok ()
    ∧ (submitRun none exSubmitOpts {}
        { packageResult := .ok "/tmp/a.tar.gz", encodeResult := .ok "QUJD",
          cmCreate := .ok, pvcCreate := .err 500 "Internal Server Error",
          jobCreate := .ok }).jobRequested
      = some (buildPyTorchJob exSubmitOpts "job1-artifact")
    ∧ exSubmitOpts.autoPVCforPip = true :=
  ⟨rfl, rfl, rfl⟩

/-- C4 amended: during `submitRun`, EVERY failure of the pip-cache PVC
create — conflict or any other class — is swallowed: the outcome is
identical to the success case, so a conflict in particular leaves the run
proceeding unaffected to manifest build and job submission.  The PVC
create is the only step whose failure is swallowed: packaging, encoding,
ConfigMap-create and job-create failures all surface to the caller. -/
theorem submitRun_pvc_swallow_spec (cache : Option Manifest) (o : JobOptions)
    (settings : Settings) (env : SubmitEnv) :
    (∀ pvcRes, submitRun cache o settings { env with pvcCreate := pvcRes }
        = submitRun cache o settings { env with pvcCreate := .ok }) ∧
    (∀ e, env.packageResult = .error e →
      (submitRun cache o settings env).result = .error e) ∧
    (∀ a e, env.packageResult = .ok a → env.encodeResult = .error e →
      (submitRun cache o settings env).result = .error e) ∧
    (∀ a b s bo, env.packageResult = .ok a → env.encodeResult = .ok b →
      env.cmCreate = .err s bo →
      (submitRun cache o settings env).result = .error (apiErrorMsg s bo)) ∧
    (∀ a b s bo, env.packageResult = .ok a → env.encodeResult = .ok b →
      env.cmCreate = .ok → env.jobCreate = .err s bo →
      (submitRun cache o settings env).result = .error (apiErrorMsg s bo)) := by
  obtain ⟨pk, en, cm, pv, jb⟩ := env
  refine ⟨fun pvcRes => ?_, ?_, ?_, ?_, ?_⟩
  · cases pk <;> cases en <;> cases cm <;> cases jb <;> cases pvcRes <;> rfl
  · rintro e rfl; rfl
  · rintro a e rfl rfl; rfl
  · rintro a b s bo rfl rfl rfl; rfl
  · rintro a b s bo rfl rfl rfl rfl; rfl

/-- Witness for C4's amended claim: a job-create failure (the step after
the swallowed PVC create) does surface. -/
theorem submitRun_pvc_swallow_spec_witness :
    (submitRun none exSubmitOpts {}
        { packageResult := .ok "/tmp/a.tar.gz", encodeResult := .ok "QUJD",
          cmCreate := .ok, pvcCreate := .ok,
          jobCreate := .err 403 "forbidden" }).result
      = .error (apiErrorMsg 403 "forbidden") :=
  (submitRun_pvc_swallow_spec none exSubmitOpts {} _).2.2.2.2
    "/tmp/a.tar.gz" "QUJD" 403 "forbidden" rfl rfl rfl rfl

/-! ### Claim C5: token-endpoint resolution policy -/

/-- C5 counterexample: a configured override ending in a slash is not
used verbatim — the code strips the trailing slash before use. -/
theorem tokenUrl_override_not_verbatim :
    resolveTokenEndpoint { tokenUrl := "https://kc.example.com/token/" } "u" "r"
      = .ok "https://kc.example.com/token"
    ∧ "https://kc.example.com/token" ≠ "https://kc.example.com/token/" :=
  ⟨rfl, by decide⟩

/-- C5 amended: token-endpoint resolution is deterministic with the
priority: (1) a truthy override is trimmed and must then start with
`http://` or `https://` (case-insensitively) — otherwise resolution fails
with the configuration error — and is used with one trailing slash
stripped, regardless of the url and realm arguments; (2) else a trimmed
realm that is itself an http(s) URL is used with one trailing slash
stripped and `/protocol/openid-connect/token` appended, regardless of the
url; (3) otherwise the endpoint is
`<base-url-minus-trailing-slash>/realms/<realm-or-kubeflow>/protocol/openid-connect/token`. -/
theorem resolveTokenEndpoint_policy (settings : Settings) (url realm : String) :
    (settings.tokenUrl ≠ "" → startsWithHttp (jsTrim settings.tokenUrl) = false →
      resolveTokenEndpoint settings url realm
        = .error "Invalid \"kflow.keycloak.tokenUrl\": expected absolute URL starting with http:// or https://.") ∧
    (settings.tokenUrl ≠ "" → startsWithHttp (jsTrim settings.tokenUrl) = true →
      resolveTokenEndpoint settings url realm
        = .ok (stripTrailingSlash (jsTrim settings.tokenUrl))) ∧
    (∀ url2 realm2, settings.tokenUrl ≠ "" →
      resolveTokenEndpoint settings url2 realm2
        = resolveTokenEndpoint settings url realm) ∧
    (settings.tokenUrl = "" → startsWithHttp (jsTrim realm) = true →
      resolveTokenEndpoint settings url realm
        = .ok (stripTrailingSlash (jsTrim realm) ++ "/protocol/openid-connect/token")
      ∧ ∀ url2, resolveTokenEndpoint settings url2 realm
          = resolveTokenEndpoint settings url realm) ∧
    (settings.tokenUrl = "" → startsWithHttp (jsTrim realm) = false →
      resolveTokenEndpoint settings url realm
        = .ok (stripTrailingSlash url ++ "/realms/"
            ++ (if jsTrim realm = "" then "kubeflow" else jsTrim realm)
            ++ "/protocol/openid-connect/token")) := by
  refine ⟨fun h1 h2 => ?_, fun h1 h2 => ?_, fun url2 realm2 h1 => ?_,
    fun h1 h2 => ⟨?_, fun url2 => ?_⟩, fun h1 h2 => ?_⟩
  · simp [resolveTokenEndpoint, h1, h2]
  · simp [resolveTokenEndpoint, h1, h2]
  · simp [resolveTokenEndpoint, h1]
  · simp [resolveTokenEndpoint, h1, h2]
  · simp [resolveTokenEndpoint, h1, h2]
  · simp [resolveTokenEndpoint, h1, h2]

/-- Witness for C5's amended claim: a valid https override resolves to
itself (here with nothing to strip), regardless of url and realm. -/
theorem resolveTokenEndpoint_policy_witness :
    ({ tokenUrl := "https://kc.example.com/auth" } : Settings).tokenUrl ≠ ""
    ∧ startsWithHttp
        (jsTrim ({ tokenUrl := "https://kc.example.com/auth" } : Settings).tokenUrl)
      = true
    ∧ resolveTokenEndpoint { tokenUrl := "https://kc.example.com/auth" }
        "http://base" "myrealm"
      = .ok "https://kc.example.com/auth" :=
  ⟨by decide, by decide,
    (resolveTokenEndpoint_policy { tokenUrl := "https://kc.example.com/auth" }
      "http://base" "myrealm").2.1 (by decide) (by decide)⟩

/-! ### Claim C6: the background-refresh delay -/

/-- C6: every way a session becomes set arms the refresh timer with delay
exactly `max(10s, expiresAt - now - 5min)`: `setSession` (through which
both login success and refresh success pass) always does, and the restore
at startup arms exactly that delay whenever it restores a session (and no
timer otherwise); for a session just created from a token response with
`expires_in = 300`, the armed delay is exactly 10 seconds. -/
theorem refresh_timer_delay (st : AuthState) (now : Nat) (s : Session)
    (store : SecretStore) (p : TokenPayload) (prior : Option String) :
    ((setSession st now s).timerDelay
        = some (max 10000 ((s.expiresAt : Int) - (now : Int) - 5 * 60 * 1000))) ∧
    ((restoreSession store now).timerDelay
        = (restoreSession store now).session.map
            (fun ss => max 10000 ((ss.expiresAt : Int) - (now : Int) - 5 * 60 * 1000))) ∧
    (p.expires_in = some 300 →
      (setSession st now (sessionOfPayload now p prior)).timerDelay
        = some 10000) := by
  refine ⟨rfl, ?_, fun hpe => ?_⟩
  · rcases ha : store.accessTokenVal with _ | a
    · simp [restoreSession, ha]
    · by_cases he : a = ""
      · simp [restoreSession, ha, he]
      · simp [restoreSession, ha, he, scheduleRefresh, refreshDelayMs]
  · simp only [setSession, scheduleRefresh, refreshDelayMs, sessionOfPayload,
      effectiveExpiresIn, hpe]
    norm_num

/-- Witness for C6: a token response with `expires_in = 300` arms the
timer for exactly 10 seconds. -/
theorem refresh_timer_delay_witness :
    ({ access_token := "at", refresh_token := none,
       expires_in := some 300 } : TokenPayload).expires_in = some 300
    ∧ (setSession {} 0
        (sessionOfPayload 0
          { access_token := "at", refresh_token := none, expires_in := some 300 }
          none)).timerDelay
      = some 10000 :=
  ⟨rfl, (refresh_timer_delay {} 0 ⟨"", none, 0⟩ {} _ none).2.2 rfl⟩

/-! ### Claim C7: persistence round trip of a session -/

/-- C7 counterexample: a session whose refresh token is the empty string
does not round-trip.  `setSession` skips persisting a falsy refresh token
and a fresh restore reconstructs the session with no refresh token, so
the reconstructed session differs from the original. -/
theorem roundtrip_drops_empty_refresh :
    (restoreSession (setSession {} 0 ⟨"tok", some "", 5000⟩).store 0).session
      = some ⟨"tok", none, 5000⟩
    ∧ some (⟨"tok", none, 5000⟩ : Session) ≠ some ⟨"tok", some "", 5000⟩ := by
  exact ⟨by decide, by decide⟩

/-- C7 amended: for every session with a non-empty access token (the data
model's invariant) and a refresh token that is absent or non-empty,
`setSession` followed by a fresh restore from the resulting store
reconstructs the identical session, provided the store held no stale
refresh-token value when the session being persisted has none. -/
theorem session_roundtrip (s : Session) (st : AuthState) (now1 now2 : Nat)
    (ha : s.accessToken ≠ "") (hr : s.refreshToken ≠ some "")
    (hst : s.refreshToken = none → st.store.refreshTokenVal = none) :
    (restoreSession (setSession st now1 s).store now2).session = some s := by
  obtain ⟨a, rt, e⟩ := s
  simp only at ha hr hst
  rcases rt with _ | r
  · have h0 : st.store.refreshTokenVal = none := hst rfl
    simp [setSession, restoreSession, scheduleRefresh, h0, ha,
      jsToNumber_repr, repr_ne_empty e]
  · have hr2 : r ≠ "" := fun h => hr (by rw [h])
    simp [setSession, restoreSession, scheduleRefresh, ha, hr2,
      jsToNumber_repr, repr_ne_empty e]

/-- Witness for C7's amended claim: a well-formed session with a
non-empty refresh token round-trips through an empty store. -/
theorem session_roundtrip_witness :
    (⟨"tok", some "rt", 5000⟩ : Session).accessToken ≠ ""
    ∧ (⟨"tok", some "rt", 5000⟩ : Session).refreshToken ≠ some ""
    ∧ (restoreSession (setSession {} 0 ⟨"tok", some "rt", 5000⟩).store 0).session
        = some ⟨"tok", some "rt", 5000⟩ :=
  ⟨by decide, by decide,
    session_roundtrip ⟨"tok", some "rt", 5000⟩ {} 0 0 (by decide) (by decide)
      (fun h => nomatch h)⟩

/-! ### Claim C8: what a failed refresh does to the session -/

/-- C8 counterexample: a refresh failure reached directly (the
`ensureValidSession` path) does NOT force the Unauthenticated state: the
token endpoint answers 500, `refreshSession` throws, and the manager
still holds the in-memory session, the armed timer, and the persisted
keys, refuting that every failed refresh clears them. -/
theorem refresh_failure_keeps_session :
    (refreshSession exAuthedState 2000 {} (.err 500 "server error")
        (fun _ => none)).1
      = exAuthedState
    ∧ exAuthedState.session ≠ none
    ∧ exAuthedState.store.accessTokenVal ≠ none :=
  ⟨rfl, by decide, by decide⟩

/-- C8 amended: only the background-timer path forces sign-out.  Whenever
a refresh attempt fails — no refresh token available, endpoint
misconfiguration, or a non-2xx token response — `refreshSession` itself
leaves the entire state (session, timer, persisted keys) unchanged and
propagates the error; the timer callback reacts to that same failure by
signing out, producing the Unauthenticated state with the session
cleared, the timer cancelled, and all three persisted keys deleted. -/
theorem refresh_failure_spec (st : AuthState) (now : Nat) (settings : Settings)
    (response : FetchResult) (parse : String → Option ErrBody) (e : String)
    (hfail : (refreshSession st now settings response parse).2 = .error e) :
    (refreshSession st now settings response parse).1 = st ∧
    timerFire st now settings response parse
      = { session := none, timerDelay := none, store := {} } := by
  rcases hsess : st.session with _ | s
  · exact ⟨by simp [refreshSession, hsess],
      by simp [timerFire, refreshSession, hsess, signOut]⟩
  · rcases hrt : s.refreshToken with _ | rt
    · exact ⟨by simp [refreshSession, hsess, hrt],
        by simp [timerFire, refreshSession, hsess, hrt, signOut]⟩
    · by_cases hre : rt = ""
      · exact ⟨by simp [refreshSession, hsess, hrt, hre],
          by simp [timerFire, refreshSession, hsess, hrt, hre, signOut]⟩
      · rcases hep : resolveTokenEndpoint settings settings.url settings.realm
          with e2 | ep
        · exact ⟨by simp [refreshSession, hsess, hrt, hre, hep],
            by simp [timerFire, refreshSession, hsess, hrt, hre, hep, signOut]⟩
        · rcases response with p | ⟨status, body⟩
          · exfalso
            simp [refreshSession, hsess, hrt, hre, hep] at hfail
          · exact ⟨by simp [refreshSession, hsess, hrt, hre, hep],
              by simp [timerFire, refreshSession, hsess, hrt, hre, hep, signOut]⟩

/-- Witness for C8's amended claim: a concrete 503 refresh failure leaves
the direct path's state untouched while the timer path signs out. -/
theorem refresh_failure_spec_witness :
    (refreshSession exAuthedState2 0 {} (.err 503 "") (fun _ => none)).2
      = .error "Authentication failed (503) at /realms/kubeflow/protocol/openid-connect/token: "
    ∧ (refreshSession exAuthedState2 0 {} (.err 503 "") (fun _ => none)).1
        = exAuthedState2
    ∧ timerFire exAuthedState2 0 {} (.err 503 "") (fun _ => none)
        = { session := none, timerDelay := none, store := {} } :=
  ⟨rfl,
    (refresh_failure_spec exAuthedState2 0 {} (.err 503 "") (fun _ => none)
      "Authentication failed (503) at /realms/kubeflow/protocol/openid-connect/token: "
      rfl).1,
    (refresh_failure_spec exAuthedState2 0 {} (.err 503 "") (fun _ => none)
      "Authentication failed (503) at /realms/kubeflow/protocol/openid-connect/token: "
      rfl).2⟩

/-! ### Claim C9: error text is credential-free -/

/-- C9: the error text for a rejected login is precisely
`buildAuthErrorMessage` applied to the response status, response body,
resolved token endpoint and client id — even though the request itself
carries the username and password — so two login attempts differing only
in the supplied credentials but receiving the same provider response
yield identical error text (and identical resulting state); a rejected
refresh produces its error text through the same function of the same
four inputs. -/
theorem login_error_credential_free (st : AuthState) (now : Nat)
    (settings : Settings) (url u1 pw1 u2 pw2 : String) (status : Nat)
    (body : String) (parse : String → Option ErrBody) (ep : String)
    (hep : resolveTokenEndpoint settings url settings.realm = .ok ep) :
    loginAttempt st now settings url u1 pw1 (.err status body) parse
      = (some { endpoint := ep, grant_type := "password",
                client_id := effectiveClientId settings,
                username := u1, password := pw1 },
         st,
         .error (buildAuthErrorMessage parse status body ep
           (effectiveClientId settings))) ∧
    ((loginAttempt st now settings url u1 pw1 (.err status body) parse).2
      = (loginAttempt st now settings url u2 pw2 (.err status body) parse).2) ∧
    (∀ s rt ep2, st.session = some s → s.refreshToken = some rt → rt ≠ "" →
      resolveTokenEndpoint settings settings.url settings.realm = .ok ep2 →
      (refreshSession st now settings (.err status body) parse).2
        = .error (buildAuthErrorMessage parse status body ep2
            (effectiveClientId settings))) := by
  refine ⟨?_, ?_, fun s rt ep2 hs hrt hne hep2 => ?_⟩
  · simp [loginAttempt, hep]
  · simp [loginAttempt, hep]
  · simp [refreshSession, hs, hrt, hne, hep2]

/-- Witness for C9: two login attempts with different usernames and
passwords but the same 401 response end in the identical state and error
text. -/
theorem login_error_credential_free_witness :
    resolveTokenEndpoint { tokenUrl := "https://kc/token" } "http://base" ""
      = .ok "https://kc/token"
    ∧ ((loginAttempt {} 0 { tokenUrl := "https://kc/token" } "http://base"
          "alice" "secret1" (.err 401 "denied") (fun _ => none)).2
        = (loginAttempt {} 0 { tokenUrl := "https://kc/token" } "http://base"
            "bob" "secret2" (.err 401 "denied") (fun _ => none)).2) :=
  ⟨rfl,
    (login_error_credential_free {} 0 { tokenUrl := "https://kc/token" }
      "http://base" "alice" "secret1" "bob" "secret2" 401 "denied"
      (fun _ => none) "https://kc/token" rfl).2.1⟩

end KF
